import Mathlib

set_option autoImplicit false

namespace SetJs

/-!
Shallow embedding of the set.js client SDK (a typed wrapper over Set Protocol
contracts).  The embedding covers:

* `ContractWrapper` — the per-process contract-handle cache keyed by the string
  `Kind_address_caller` (src/unnamed/part_001, lines 47-268).  Handle identity
  of the objects returned by the typechain `connect` calls is modelled by
  allocating a fresh natural-number id for every newly connected handle.
* `SetTokenAPI` — validation plus delegation methods (src/unnamed/part_001,
  lines 307-686).  A method is modelled as a pure function of its arguments and
  of the remote responses; its value is the pair of the outcome and the list of
  remote calls actually issued, so that "rejects before any remote call" is the
  statement that the issued-call list is empty.
* the trade-quote fixture arithmetic (src/test/fixtures/tradeQuote.ts) over ℚ.
-/

/-- Contract kinds handled by `ContractWrapper`: one per `load*Async` method. -/
inductive ContractKind where
  | controller
  | erc20
  | basicIssuance
  | tradeModule
  | setToken
  | setTokenCreator
  | streamingFeeModule
  | protocolViewer
  deriving DecidableEq, Repr

/-- The string used as the first component of the cache key by each
`load*Async` method of `ContractWrapper`. -/
def kindName : ContractKind → String
  | .controller => "Controller"
  | .erc20 => "ERC20"
  | .basicIssuance => "BasicIssuance"
  | .tradeModule => "TradeModule"
  | .setToken => "SetToken"
  | .setTokenCreator => "SetTokenCreator"
  | .streamingFeeModule => "StreamingFeeModule"
  | .protocolViewer => "ProtocolViewer"

/-- The cache key template shared by every `load*Async` method, for example
`Controller_<controllerAddress>_<await signer.getAddress()>`. -/
def cacheKey (k : ContractKind) (address caller : String) : String :=
  kindName k ++ "_" ++ address ++ "_" ++ caller

/-- A string with no underscore character.  Well-formed Ethereum addresses
(hex strings) satisfy this; it is what makes the key template injective. -/
def noUnderscore (s : String) : Bool :=
  s.data.all (fun c => c ≠ '_')

/-- State of a `ContractWrapper` instance: the `cache` field (a JS object used
as a string-keyed map, modelled as an association list with most recent
insertion first) together with the allocator for fresh handle identities. -/
structure CWState where
  cache : List (String × Nat)
  nextId : Nat

/-- A freshly constructed `ContractWrapper`: `this.cache = {}`. -/
def CWState.init : CWState := ⟨[], 0⟩

/-- Key lookup, modelling `cacheKey in this.cache` / `this.cache[cacheKey]`. -/
def lookupCache (k : String) : List (String × Nat) → Option Nat
  | [] => none
  | (k', v) :: rest => if k' = k then some v else lookupCache k rest

/-- One `load*Async` call: build the cache key, return the stored handle if the
key is present, otherwise connect a fresh handle, store it and return it. -/
def loadContract (k : ContractKind) (address caller : String) (s : CWState) :
    Nat × CWState :=
  let key := cacheKey k address caller
  match lookupCache key s.cache with
  | some h => (h, s)
  | none => (s.nextId, ⟨(key, s.nextId) :: s.cache, s.nextId + 1⟩)

/-- A sequence of `load*Async` calls, state effect only. -/
def runLoads : List (ContractKind × String × String) → CWState → CWState
  | [], s => s
  | (k, a, c) :: rest, s => runLoads rest (loadContract k a c s).2

/-- Well-formedness of a `ContractWrapper` state: every stored handle was
allocated below `nextId` and no two entries share a handle. -/
def CWState.WF (s : CWState) : Prop :=
  (∀ p ∈ s.cache, p.2 < s.nextId) ∧ (s.cache.map Prod.snd).Nodup

theorem CWState.init_WF : CWState.init.WF := by
  constructor
  · intro p hp; simp [CWState.init] at hp
  · simp [CWState.init]

theorem lookupCache_cons (k k' : String) (v : Nat) (c : List (String × Nat)) :
    lookupCache k ((k', v) :: c) = if k' = k then some v else lookupCache k c := rfl

theorem lookupCache_mem {k : String} {v : Nat} {c : List (String × Nat)}
    (h : lookupCache k c = some v) : (k, v) ∈ c := by
  induction c with
  | nil => simp [lookupCache] at h
  | cons p rest ih =>
    obtain ⟨k', v'⟩ := p
    rw [lookupCache_cons] at h
    by_cases hk : k' = k
    · subst hk
      simp at h
      subst h
      exact List.mem_cons_self _ _
    · simp [hk] at h
      exact List.mem_cons_of_mem _ (ih h)

theorem lookupCache_mem_map_snd {k : String} {v : Nat} {c : List (String × Nat)}
    (h : lookupCache k c = some v) : v ∈ c.map Prod.snd :=
  List.mem_map.mpr ⟨(k, v), lookupCache_mem h, rfl⟩

theorem lookupCache_lt_nextId {s : CWState} {k : String} {v : Nat}
    (hwf : s.WF) (h : lookupCache k s.cache = some v) : v < s.nextId :=
  hwf.1 _ (lookupCache_mem h)

/-- Distinct keys hold distinct handles in a well-formed cache. -/
theorem lookupCache_ne_of_nodup {c : List (String × Nat)} {k₁ k₂ : String}
    {v₁ v₂ : Nat} (hnd : (c.map Prod.snd).Nodup)
    (h₁ : lookupCache k₁ c = some v₁) (h₂ : lookupCache k₂ c = some v₂)
    (hk : k₁ ≠ k₂) : v₁ ≠ v₂ := by
  induction c with
  | nil => simp [lookupCache] at h₁
  | cons p rest ih =>
    obtain ⟨k', v'⟩ := p
    simp only [List.map_cons, List.nodup_cons] at hnd
    rw [lookupCache_cons] at h₁ h₂
    by_cases e₁ : k' = k₁
    · subst e₁
      simp at h₁
      subst h₁
      have e₂ : k' ≠ k₂ := hk
      simp [e₂] at h₂
      intro hv
      exact hnd.1 (hv ▸ lookupCache_mem_map_snd h₂)
    · simp [e₁] at h₁
      by_cases e₂ : k' = k₂
      · subst e₂
        simp at h₂
        subst h₂
        intro hv
        exact hnd.1 (hv ▸ lookupCache_mem_map_snd h₁)
      · simp [e₂] at h₂
        exact ih hnd.2 h₁ h₂

/-- Unfolding lemma: a load that hits the cache returns the stored handle and
leaves the state unchanged. -/
theorem loadContract_of_lookup {s : CWState} {k : ContractKind} {a c : String}
    {h : Nat} (hk : lookupCache (cacheKey k a c) s.cache = some h) :
    loadContract k a c s = (h, s) := by
  simp only [loadContract]
  rw [hk]

/-- Unfolding lemma: a load that misses the cache connects a fresh handle,
stores it under the key and returns it. -/
theorem loadContract_of_not_found {s : CWState} {k : ContractKind} {a c : String}
    (hk : lookupCache (cacheKey k a c) s.cache = none) :
    loadContract k a c s
      = (s.nextId, ⟨(cacheKey k a c, s.nextId) :: s.cache, s.nextId + 1⟩) := by
  simp only [loadContract]
  rw [hk]

/-- Loading preserves well-formedness. -/
theorem loadContract_WF {s : CWState} (hwf : s.WF)
    (k : ContractKind) (a c : String) : ((loadContract k a c s).2).WF := by
  cases hl : lookupCache (cacheKey k a c) s.cache with
  | some h => rw [loadContract_of_lookup hl]; exact hwf
  | none =>
    rw [loadContract_of_not_found hl]
    constructor
    · intro p hp
      rcases List.mem_cons.mp hp with h | h
      · subst h; exact Nat.lt_succ_self _
      · exact Nat.lt_succ_of_lt (hwf.1 _ h)
    · simp only [List.map_cons, List.nodup_cons]
      refine ⟨?_, hwf.2⟩
      intro hmem
      rcases List.mem_map.mp hmem with ⟨p, hp, hsnd⟩
      have := hwf.1 _ hp
      omega

theorem runLoads_WF {s : CWState} (hwf : s.WF)
    (ops : List (ContractKind × String × String)) : (runLoads ops s).WF := by
  induction ops generalizing s with
  | nil => simpa [runLoads] using hwf
  | cons op rest ih =>
    obtain ⟨k, a, c⟩ := op
    exact ih (loadContract_WF hwf k a c)

/-- After a load, the key maps to the returned handle. -/
theorem loadContract_lookup_self (k : ContractKind) (a c : String) (s : CWState) :
    lookupCache (cacheKey k a c) ((loadContract k a c s).2).cache
      = some (loadContract k a c s).1 := by
  cases hl : lookupCache (cacheKey k a c) s.cache with
  | some h => rw [loadContract_of_lookup hl]; exact hl
  | none => rw [loadContract_of_not_found hl]; simp [lookupCache_cons]

/-- No eviction: an entry present before a load is present, unchanged, after. -/
theorem loadContract_preserves {s : CWState} {key : String} {h : Nat}
    (hk : lookupCache key s.cache = some h) (k : ContractKind) (a c : String) :
    lookupCache key ((loadContract k a c s).2).cache = some h := by
  cases hl : lookupCache (cacheKey k a c) s.cache with
  | some h' => rw [loadContract_of_lookup hl]; exact hk
  | none =>
    have hne : cacheKey k a c ≠ key := by
      intro e
      rw [e, hk] at hl
      exact Option.noConfusion hl
    rw [loadContract_of_not_found hl]
    simp [lookupCache_cons, hne, hk]

/-- No eviction, over any sequence of loads. -/
theorem runLoads_preserves {s : CWState} {key : String} {h : Nat}
    (hk : lookupCache key s.cache = some h)
    (ops : List (ContractKind × String × String)) :
    lookupCache key (runLoads ops s).cache = some h := by
  induction ops generalizing s with
  | nil => simpa [runLoads] using hk
  | cons op rest ih =>
    obtain ⟨k, a, c⟩ := op
    exact ih (loadContract_preserves hk k a c)

/-- Splitting a character list at a separator absent from the left part is
unambiguous. -/
theorem append_sep_inj : ∀ (u₁ : List Char) {u₂ r₁ r₂ : List Char},
    (∀ ch ∈ u₁, ch ≠ '_') → (∀ ch ∈ u₂, ch ≠ '_') →
    u₁ ++ '_' :: r₁ = u₂ ++ '_' :: r₂ → u₁ = u₂ ∧ r₁ = r₂ := by
  intro u₁
  induction u₁ with
  | nil =>
    intro u₂ r₁ r₂ _ h₂ he
    cases u₂ with
    | nil => simpa using he
    | cons b bs =>
      exfalso
      simp at he
      exact h₂ b (List.mem_cons_self _ _) he.1.symm
  | cons a as ih =>
    intro u₂ r₁ r₂ h₁ h₂ he
    cases u₂ with
    | nil =>
      exfalso
      simp at he
      exact h₁ a (List.mem_cons_self _ _) he.1
    | cons b bs =>
      simp at he
      obtain ⟨hab, htail⟩ := he
      have := ih (fun ch hc => h₁ ch (List.mem_cons_of_mem _ hc))
        (fun ch hc => h₂ ch (List.mem_cons_of_mem _ hc)) htail
      exact ⟨by rw [hab, this.1], this.2⟩

theorem cacheKey_data (k : ContractKind) (a c : String) :
    (cacheKey k a c).data = (kindName k).data ++ '_' :: (a.data ++ '_' :: c.data) := by
  simp [cacheKey, String.data_append]

theorem kindName_noUnderscore (k : ContractKind) : noUnderscore (kindName k) = true := by
  cases k <;> decide

theorem kindName_inj {k₁ k₂ : ContractKind} (h : kindName k₁ = kindName k₂) :
    k₁ = k₂ := by
  cases k₁ <;> cases k₂ <;> first | rfl | exact absurd h (by decide)

theorem noUnderscore_chars {s : String} (h : noUnderscore s = true) :
    ∀ ch ∈ s.data, ch ≠ '_' := by
  intro ch hc
  have := List.all_eq_true.mp h ch hc
  simpa using this

/-- The cache key template is injective as long as the address and caller
strings contain no underscore (which well-formed hex addresses never do):
distinct (kind, address, caller) tuples always get distinct cache keys, so no
two distinct connections can collide in the cache. -/
theorem cacheKey_inj {k₁ k₂ : ContractKind} {a₁ c₁ a₂ c₂ : String}
    (ha₁ : noUnderscore a₁ = true) (ha₂ : noUnderscore a₂ = true)
    (h : cacheKey k₁ a₁ c₁ = cacheKey k₂ a₂ c₂) : k₁ = k₂ ∧ a₁ = a₂ ∧ c₁ = c₂ := by
  have hd : (cacheKey k₁ a₁ c₁).data = (cacheKey k₂ a₂ c₂).data := by rw [h]
  rw [cacheKey_data, cacheKey_data] at hd
  have h₁ := append_sep_inj (kindName k₁).data
    (noUnderscore_chars (kindName_noUnderscore k₁))
    (noUnderscore_chars (kindName_noUnderscore k₂)) hd
  have h₂ := append_sep_inj a₁.data
    (noUnderscore_chars ha₁) (noUnderscore_chars ha₂) h₁.2
  refine ⟨kindName_inj (String.ext h₁.1), String.ext h₂.1, String.ext h₂.2⟩

/-- Claim C1: for the connection cache in `ContractWrapper`, loading the same
(kind, address, caller) tuple twice returns the identical handle — even with
arbitrarily many other loads in between, since no operation ever evicts or
replaces a stored entry — and loading a different tuple (with underscore-free
addresses, as all well-formed hex addresses are) returns a different handle. -/
theorem claim_C1_connection_cache
    (s : CWState) (ops : List (ContractKind × String × String))
    (k₁ k₂ : ContractKind) (a₁ c₁ a₂ c₂ : String)
    (hwf : s.WF) (ha₁ : noUnderscore a₁ = true) (ha₂ : noUnderscore a₂ = true) :
    (loadContract k₁ a₁ c₁ (runLoads ops (loadContract k₁ a₁ c₁ s).2)).1
        = (loadContract k₁ a₁ c₁ s).1
    ∧ ((k₁, a₁, c₁) ≠ (k₂, a₂, c₂) →
        (loadContract k₂ a₂ c₂ (runLoads ops (loadContract k₁ a₁ c₁ s).2)).1
          ≠ (loadContract k₁ a₁ c₁ s).1) := by
  set h := (loadContract k₁ a₁ c₁ s).1 with hh
  have hlook : lookupCache (cacheKey k₁ a₁ c₁)
      (runLoads ops (loadContract k₁ a₁ c₁ s).2).cache = some h :=
    runLoads_preserves (loadContract_lookup_self k₁ a₁ c₁ s) ops
  have hwfN : (runLoads ops (loadContract k₁ a₁ c₁ s).2).WF :=
    runLoads_WF (loadContract_WF hwf k₁ a₁ c₁) ops
  constructor
  · rw [loadContract_of_lookup hlook]
  · intro hne
    have hkey : cacheKey k₂ a₂ c₂ ≠ cacheKey k₁ a₁ c₁ := by
      intro he
      obtain ⟨ek, ea, ec⟩ := cacheKey_inj ha₂ ha₁ he
      exact hne (by rw [ek, ea, ec])
    cases hl₂ : lookupCache (cacheKey k₂ a₂ c₂)
        (runLoads ops (loadContract k₁ a₁ c₁ s).2).cache with
    | some h₂ =>
      rw [loadContract_of_lookup hl₂]
      exact lookupCache_ne_of_nodup hwfN.2 hl₂ hlook hkey
    | none =>
      rw [loadContract_of_not_found hl₂]
      have := lookupCache_lt_nextId hwfN hlook
      simp only
      omega

/-- Witness for claim C1 at a concrete input: a fresh wrapper, the tuple
(setToken, 0xaa, 0xcc) loaded twice, against the tuple (controller, 0xbb, 0xcc). -/
theorem claim_C1_connection_cache_witness :
    (loadContract .setToken "0xaa" "0xcc"
        (runLoads [] (loadContract .setToken "0xaa" "0xcc" CWState.init).2)).1
        = (loadContract .setToken "0xaa" "0xcc" CWState.init).1
    ∧ ((ContractKind.setToken, "0xaa", "0xcc")
          ≠ ((ContractKind.controller, "0xbb", "0xcc") :
              ContractKind × String × String) →
        (loadContract .controller "0xbb" "0xcc"
            (runLoads [] (loadContract .setToken "0xaa" "0xcc" CWState.init).2)).1
          ≠ (loadContract .setToken "0xaa" "0xcc" CWState.init).1) :=
  claim_C1_connection_cache CWState.init [] .setToken .controller
    "0xaa" "0xcc" "0xbb" "0xcc" CWState.init_WF (by decide) (by decide)

/-! ### Data model (src/unnamed/part_001 `../types`, fixtures) -/

/-- A Position of a SetToken, as decoded from the remote contract. -/
structure Position where
  component : String
  module : String
  unit : Int
  positionState : Nat
  data : String
  deriving DecidableEq, Repr

/-- The SetDetails tuple returned by the ProtocolViewer. -/
structure SetDetails where
  name : String
  symbol : String
  manager : String
  modules : List String
  moduleStatuses : List Nat
  positions : List Position
  totalSupply : Int
  deriving DecidableEq, Repr

/-- Streaming-fee information for one SetToken. -/
structure StreamingFeeInfo where
  feeRecipient : String
  streamingFeePercentage : Int
  unaccruedFees : Int
  deriving DecidableEq, Repr

/-- Result of `fetchSetDetailsAsync`: either the plain `SetDetails`, or the
spread `{...setDetails, feeRecipient, streamingFeePercentage, unaccruedFees}`
(a `SetDetailsWithStreamingInfo`). -/
inductive SetDetailsResult where
  | plain (details : SetDetails)
  | withStreamingInfo (details : SetDetails) (feeRecipient : String)
      (streamingFeePercentage unaccruedFees : Int)
  deriving DecidableEq, Repr

/-- Module lifecycle states, `MODULE_STATE` of set-protocol-v2. -/
inductive ModuleState where
  | NONE
  | PENDING
  | INITIALIZED
  deriving DecidableEq, Repr

/-- A transaction handle (`ContractTransaction`), identified by its hash. -/
abbrev Tx := String

/-! ### Validation layer

The `Assertions` class imported by `SetTokenAPI` is not among the source
files, so the predicates are modelled from the spec. -/

def isHexDigit (ch : Char) : Bool :=
  ch.isDigit || ('a' ≤ ch && ch ≤ 'f') || ('A' ≤ ch && ch ≤ 'F')

/-- Modelled from the spec: `assert.schema.isValidAddress` of the missing
`Assertions` layer; "address format" well-formedness is the 0x-prefixed
40-hex-digit Ethereum address format. -/
def isValidAddress (s : String) : Bool :=
  match s.data with
  | '0' :: 'x' :: rest => rest.length == 40 && rest.all isHexDigit
  | _ => false

/-- Modelled from the spec: `assert.schema.isValidBytes32` of the missing
`Assertions` layer; a 0x-prefixed 64-hex-digit string. -/
def isValidBytes32 (s : String) : Bool :=
  match s.data with
  | '0' :: 'x' :: rest => rest.length == 64 && rest.all isHexDigit
  | _ => false

def invalidAddressError (label : String) : String :=
  "Validation error: invalid address " ++ label

/-! ### SetTokenAPI (src/unnamed/part_001, lines 307-686)

Each method is a pure function of its arguments and of the responses the
remote side would give; it returns the outcome together with the list of
remote calls actually issued.  A synchronous validation failure therefore
shows up as an `.error` outcome paired with an empty call list. -/

/-- One remote procedure call issued by a `SetTokenAPI` method through the
downstream wrappers. -/
inductive RemoteCall where
  | create (componentAddresses : List String) (units : List Int)
      (moduleAddresses : List String) (managerAddress nm sym : String)
  | getCreatedSetTokenAddress (txHash : String)
  | getSetDetails (setTokenAddress : String) (moduleAddresses : List String)
  | batchFetchStreamingFeeInfo (setTokenAddresses : List String)
  | batchFetchDetails (setTokenAddresses moduleAddresses : List String)
  | batchFetchManagers (tokenAddresses : List String)
  | batchFetchBalancesOf (tokenAddresses ownerAddresses : List String)
  | batchFetchAllowances (tokenAddresses ownerAddresses spenderAddresses : List String)
  | controller (setAddress : String)
  | manager (setAddress : String)
  | getPositions (setAddress : String)
  | getModules (setAddress : String)
  | moduleStates (setAddress moduleAddress : String)
  | addModule (setAddress moduleAddress : String)
  | setManager (setAddress managerAddress : String)
  | initializeModule (setAddress : String)
  | isInitializedModule (setAddress moduleAddress : String)
  | isPendingModule (setAddress moduleAddress : String)
  deriving DecidableEq, Repr

/-- `SetTokenAPI.createAsync`: non-empty components, equal-length check against
units, address-list checks, manager check; then one `create` call. -/
def createAsync (componentAddresses : List String) (units : List Int)
    (moduleAddresses : List String) (managerAddress nm sym : String)
    (createResp : Except String Tx) : Except String Tx × List RemoteCall :=
  if componentAddresses.isEmpty then
    (.error "Component addresses must contain at least one component.", [])
  else if componentAddresses.length != units.length then
    (.error "Component addresses and units must be equal length.", [])
  else if !(componentAddresses.all isValidAddress) then
    (.error (invalidAddressError "componentAddresses"), [])
  else if !(moduleAddresses.all isValidAddress) then
    (.error (invalidAddressError "moduleAddresses"), [])
  else if !(isValidAddress managerAddress) then
    (.error (invalidAddressError "managerAddress"), [])
  else
    (createResp,
      [.create componentAddresses units moduleAddresses managerAddress nm sym])

/-- `SetTokenAPI.getSetAddressFromCreateHash`. -/
def getSetAddressFromCreateHash (txHash : String)
    (resp : Except String String) : Except String String × List RemoteCall :=
  if !(isValidBytes32 txHash) then
    (.error "Validation error: invalid bytes32 txHash", [])
  else
    (resp, [.getCreatedSetTokenAddress txHash])

/-- `SetTokenAPI.fetchSetDetailsAsync`: validate, fetch the set details,
and when the configured streaming-fee module is among the returned modules
additionally fetch the streaming-fee info and spread it over the details.
`const [streamingFeeInfo] = ...` destructures the head of the returned array;
on an empty array JS would fault on the subsequent property access. -/
def fetchSetDetailsAsync (setTokenAddress : String) (moduleAddresses : List String)
    (streamingFeeModuleAddress : String)
    (getSetDetailsResp : Except String SetDetails)
    (feeInfoResp : Except String (List StreamingFeeInfo)) :
    Except String SetDetailsResult × List RemoteCall :=
  if !(isValidAddress setTokenAddress) then
    (.error (invalidAddressError "setTokenAddress"), [])
  else if !(moduleAddresses.all isValidAddress) then
    (.error (invalidAddressError "moduleAddresses"), [])
  else
    match getSetDetailsResp with
    | .error e => (.error e, [.getSetDetails setTokenAddress moduleAddresses])
    | .ok setDetails =>
      if setDetails.modules.contains streamingFeeModuleAddress then
        match feeInfoResp with
        | .error e =>
          (.error e,
            [.getSetDetails setTokenAddress moduleAddresses,
             .batchFetchStreamingFeeInfo [setTokenAddress]])
        | .ok feeInfos =>
          match feeInfos with
          | streamingFeeInfo :: _ =>
            (.ok (.withStreamingInfo setDetails streamingFeeInfo.feeRecipient
                streamingFeeInfo.streamingFeePercentage
                streamingFeeInfo.unaccruedFees),
              [.getSetDetails setTokenAddress moduleAddresses,
               .batchFetchStreamingFeeInfo [setTokenAddress]])
          | [] =>
            (.error "TypeError: cannot read properties of undefined",
              [.getSetDetails setTokenAddress moduleAddresses,
               .batchFetchStreamingFeeInfo [setTokenAddress]])
      else
        (.ok (.plain setDetails), [.getSetDetails setTokenAddress moduleAddresses])

/-- `SetTokenAPI.batchFetchSetDetailsAsync`. -/
def batchFetchSetDetailsAsync (setTokenAddresses moduleAddresses : List String)
    (resp : Except String (List SetDetails)) :
    Except String (List SetDetails) × List RemoteCall :=
  if !(setTokenAddresses.all isValidAddress) then
    (.error (invalidAddressError "setTokenAddresses"), [])
  else if !(moduleAddresses.all isValidAddress) then
    (.error (invalidAddressError "moduleAddresses"), [])
  else
    (resp, [.batchFetchDetails setTokenAddresses moduleAddresses])

/-- `SetTokenAPI.batchFetchManagersAsync`: delegates directly, with no
validation of any kind (src/unnamed/part_001, lines 461-465). -/
def batchFetchManagersAsync (tokenAddresses : List String)
    (resp : Except String (List String)) :
    Except String (List String) × List RemoteCall :=
  (resp, [.batchFetchManagers tokenAddresses])

/-- `SetTokenAPI.batchFetchBalancesOfAsync`: validates the user address, then
maps over the token addresses (validating each) to build the parallel owner
array, every element of which is the user address. -/
def batchFetchBalancesOfAsync (tokenAddresses : List String) (userAddress : String)
    (resp : Except String (List Int)) :
    Except String (List Int) × List RemoteCall :=
  if !(isValidAddress userAddress) then
    (.error (invalidAddressError "userAddress"), [])
  else if !(tokenAddresses.all isValidAddress) then
    (.error (invalidAddressError "tokenAddress"), [])
  else
    let ownerAddresses := tokenAddresses.map (fun _ => userAddress)
    (resp, [.batchFetchBalancesOf tokenAddresses ownerAddresses])

/-- `SetTokenAPI.batchFetchAllowancesAsync`: validates owner and spender, then
per token pushes the owner and the spender onto the two parallel arrays. -/
def batchFetchAllowancesAsync (tokenAddresses : List String)
    (ownerAddress spenderAddress : String) (resp : Except String (List Int)) :
    Except String (List Int) × List RemoteCall :=
  if !(isValidAddress ownerAddress) then
    (.error (invalidAddressError "ownerAddress"), [])
  else if !(isValidAddress spenderAddress) then
    (.error (invalidAddressError "spenderAddress"), [])
  else if !(tokenAddresses.all isValidAddress) then
    (.error (invalidAddressError "tokenAddress"), [])
  else
    let ownerAddresses := tokenAddresses.map (fun _ => ownerAddress)
    let spenderAddresses := tokenAddresses.map (fun _ => spenderAddress)
    (resp, [.batchFetchAllowances tokenAddresses ownerAddresses spenderAddresses])

/-- `SetTokenAPI.getControllerAddressAsync`. -/
def getControllerAddressAsync (setAddress : String)
    (resp : Except String String) : Except String String × List RemoteCall :=
  if !(isValidAddress setAddress) then
    (.error (invalidAddressError "setAddress"), [])
  else
    (resp, [.controller setAddress])

/-- `SetTokenAPI.getManagerAddressAsync`. -/
def getManagerAddressAsync (setAddress : String)
    (resp : Except String String) : Except String String × List RemoteCall :=
  if !(isValidAddress setAddress) then
    (.error (invalidAddressError "setAddress"), [])
  else
    (resp, [.manager setAddress])

/-- `SetTokenAPI.getPositionsAsync`. -/
def getPositionsAsync (setAddress : String)
    (resp : Except String (List Position)) :
    Except String (List Position) × List RemoteCall :=
  if !(isValidAddress setAddress) then
    (.error (invalidAddressError "setAddress"), [])
  else
    (resp, [.getPositions setAddress])

/-- `SetTokenAPI.getModulesAsync`. -/
def getModulesAsync (setAddress : String)
    (resp : Except String (List String)) :
    Except String (List String) × List RemoteCall :=
  if !(isValidAddress setAddress) then
    (.error (invalidAddressError "setAddress"), [])
  else
    (resp, [.getModules setAddress])

/-- `SetTokenAPI.getModuleStateAsync`. -/
def getModuleStateAsync (setAddress moduleAddress : String)
    (resp : Except String ModuleState) :
    Except String ModuleState × List RemoteCall :=
  if !(isValidAddress setAddress) then
    (.error (invalidAddressError "setAddress"), [])
  else if !(isValidAddress moduleAddress) then
    (.error (invalidAddressError "moduleAddress"), [])
  else
    (resp, [.moduleStates setAddress moduleAddress])

/-- `SetTokenAPI.addModuleAsync`. -/
def addModuleAsync (setAddress moduleAddress : String)
    (resp : Except String Tx) : Except String Tx × List RemoteCall :=
  if !(isValidAddress setAddress) then
    (.error (invalidAddressError "setAddress"), [])
  else if !(isValidAddress moduleAddress) then
    (.error (invalidAddressError "moduleAddress"), [])
  else
    (resp, [.addModule setAddress moduleAddress])

/-- `SetTokenAPI.setManagerAsync`. -/
def setManagerAsync (setAddress managerAddress : String)
    (resp : Except String Tx) : Except String Tx × List RemoteCall :=
  if !(isValidAddress setAddress) then
    (.error (invalidAddressError "setAddress"), [])
  else if !(isValidAddress managerAddress) then
    (.error (invalidAddressError "managerAddress"), [])
  else
    (resp, [.setManager setAddress managerAddress])

/-- `SetTokenAPI.initializeModuleAsync`: validates the set address and
delegates, propagating the remote outcome untouched. -/
def initializeModuleAsync (setAddress : String)
    (resp : Except String Tx) : Except String Tx × List RemoteCall :=
  if !(isValidAddress setAddress) then
    (.error (invalidAddressError "setAddress"), [])
  else
    (resp, [.initializeModule setAddress])

/-- `SetTokenAPI.isModuleEnabledAsync`. -/
def isModuleEnabledAsync (setAddress moduleAddress : String)
    (resp : Except String Bool) : Except String Bool × List RemoteCall :=
  if !(isValidAddress setAddress) then
    (.error (invalidAddressError "setAddress"), [])
  else if !(isValidAddress moduleAddress) then
    (.error (invalidAddressError "moduleAddress"), [])
  else
    (resp, [.isInitializedModule setAddress moduleAddress])

/-- `SetTokenAPI.isModulePendingAsync`. -/
def isModulePendingAsync (setAddress moduleAddress : String)
    (resp : Except String Bool) : Except String Bool × List RemoteCall :=
  if !(isValidAddress setAddress) then
    (.error (invalidAddressError "setAddress"), [])
  else if !(isValidAddress moduleAddress) then
    (.error (invalidAddressError "moduleAddress"), [])
  else
    (resp, [.isPendingModule setAddress moduleAddress])

/-- Claim C2, counterexample: `batchFetchManagersAsync` performs no address
validation at all — called with a malformed address it issues the downstream
batch call (and even returns a result) instead of rejecting. -/
theorem claim_C2_counterexample :
    isValidAddress "not-an-address" = false
    ∧ (batchFetchManagersAsync ["not-an-address"] (.ok [])).2
        = [RemoteCall.batchFetchManagers ["not-an-address"]]
    ∧ (batchFetchManagersAsync ["not-an-address"] (.ok [])).1 = .ok [] :=
  ⟨by decide, rfl, rfl⟩

/-- Claim C2, amended: every public `SetTokenAPI` operation other than
`batchFetchManagersAsync` rejects a malformed address argument synchronously —
the outcome is a validation error and the remote-call list is empty. -/
theorem claim_C2_amended_validation :
    (∀ ca u ma mg nm sym r,
      (ca.all isValidAddress = false ∨ ma.all isValidAddress = false
        ∨ isValidAddress mg = false) →
      ∃ e, createAsync ca u ma mg nm sym r = (Except.error e, []))
  ∧ (∀ sta ma sfm r₁ r₂,
      (isValidAddress sta = false ∨ ma.all isValidAddress = false) →
      ∃ e, fetchSetDetailsAsync sta ma sfm r₁ r₂ = (Except.error e, []))
  ∧ (∀ sta ma r,
      (sta.all isValidAddress = false ∨ ma.all isValidAddress = false) →
      ∃ e, batchFetchSetDetailsAsync sta ma r = (Except.error e, []))
  ∧ (∀ ta ua r,
      (isValidAddress ua = false ∨ ta.all isValidAddress = false) →
      ∃ e, batchFetchBalancesOfAsync ta ua r = (Except.error e, []))
  ∧ (∀ ta oa sa r,
      (isValidAddress oa = false ∨ isValidAddress sa = false
        ∨ ta.all isValidAddress = false) →
      ∃ e, batchFetchAllowancesAsync ta oa sa r = (Except.error e, []))
  ∧ (∀ sa r, isValidAddress sa = false →
      ∃ e, getControllerAddressAsync sa r = (Except.error e, []))
  ∧ (∀ sa r, isValidAddress sa = false →
      ∃ e, getManagerAddressAsync sa r = (Except.error e, []))
  ∧ (∀ sa r, isValidAddress sa = false →
      ∃ e, getPositionsAsync sa r = (Except.error e, []))
  ∧ (∀ sa r, isValidAddress sa = false →
      ∃ e, getModulesAsync sa r = (Except.error e, []))
  ∧ (∀ sa ma r,
      (isValidAddress sa = false ∨ isValidAddress ma = false) →
      ∃ e, getModuleStateAsync sa ma r = (Except.error e, []))
  ∧ (∀ sa ma r,
      (isValidAddress sa = false ∨ isValidAddress ma = false) →
      ∃ e, addModuleAsync sa ma r = (Except.error e, []))
  ∧ (∀ sa mg r,
      (isValidAddress sa = false ∨ isValidAddress mg = false) →
      ∃ e, setManagerAsync sa mg r = (Except.error e, []))
  ∧ (∀ sa r, isValidAddress sa = false →
      ∃ e, initializeModuleAsync sa r = (Except.error e, []))
  ∧ (∀ sa ma r,
      (isValidAddress sa = false ∨ isValidAddress ma = false) →
      ∃ e, isModuleEnabledAsync sa ma r = (Except.error e, []))
  ∧ (∀ sa ma r,
      (isValidAddress sa = false ∨ isValidAddress ma = false) →
      ∃ e, isModulePendingAsync sa ma r = (Except.error e, [])) := by
  refine ⟨?_, ?_, ?_, ?_, ?_, ?_, ?_, ?_, ?_, ?_, ?_, ?_, ?_, ?_, ?_⟩
  · intro ca u ma mg nm sym r h
    unfold createAsync
    rcases h with h | h | h <;>
      (repeat' first
        | exact ⟨_, rfl⟩
        | split) <;>
      simp_all
  · intro sta ma sfm r₁ r₂ h
    unfold fetchSetDetailsAsync
    rcases h with h | h <;>
      (repeat' first
        | exact ⟨_, rfl⟩
        | split) <;>
      simp_all
  · intro sta ma r h
    unfold batchFetchSetDetailsAsync
    rcases h with h | h <;>
      (repeat' first
        | exact ⟨_, rfl⟩
        | split) <;>
      simp_all
  · intro ta ua r h
    unfold batchFetchBalancesOfAsync
    rcases h with h | h <;>
      (repeat' first
        | exact ⟨_, rfl⟩
        | split) <;>
      simp_all
  · intro ta oa sa r h
    unfold batchFetchAllowancesAsync
    rcases h with h | h | h <;>
      (repeat' first
        | exact ⟨_, rfl⟩
        | split) <;>
      simp_all
  · intro sa r h
    unfold getControllerAddressAsync
    (repeat' first
      | exact ⟨_, rfl⟩
      | split) <;> simp_all
  · intro sa r h
    unfold getManagerAddressAsync
    (repeat' first
      | exact ⟨_, rfl⟩
      | split) <;> simp_all
  · intro sa r h
    unfold getPositionsAsync
    (repeat' first
      | exact ⟨_, rfl⟩
      | split) <;> simp_all
  · intro sa r h
    unfold getModulesAsync
    (repeat' first
      | exact ⟨_, rfl⟩
      | split) <;> simp_all
  · intro sa ma r h
    unfold getModuleStateAsync
    rcases h with h | h <;>
      (repeat' first
        | exact ⟨_, rfl⟩
        | split) <;>
      simp_all
  · intro sa ma r h
    unfold addModuleAsync
    rcases h with h | h <;>
      (repeat' first
        | exact ⟨_, rfl⟩
        | split) <;>
      simp_all
  · intro sa mg r h
    unfold setManagerAsync
    rcases h with h | h <;>
      (repeat' first
        | exact ⟨_, rfl⟩
        | split) <;>
      simp_all
  · intro sa r h
    unfold initializeModuleAsync
    (repeat' first
      | exact ⟨_, rfl⟩
      | split) <;> simp_all
  · intro sa ma r h
    unfold isModuleEnabledAsync
    rcases h with h | h <;>
      (repeat' first
        | exact ⟨_, rfl⟩
        | split) <;>
      simp_all
  · intro sa ma r h
    unfold isModulePendingAsync
    rcases h with h | h <;>
      (repeat' first
        | exact ⟨_, rfl⟩
        | split) <;>
      simp_all

/-- Witness for the amended claim C2: `getManagerAddressAsync` on a malformed
address errors and issues no remote call. -/
theorem claim_C2_amended_validation_witness :
    ∃ e, getManagerAddressAsync "not-an-address" (.ok "0x")
      = (Except.error e, []) :=
  (claim_C2_amended_validation.2.2.2.2.2.2.1) "not-an-address" (.ok "0x")
    (by decide)

/-- Claim C3: mismatched parallel component/unit arrays are rejected by
`createAsync` before any network interaction. -/
theorem claim_C3_mismatched_lengths (componentAddresses : List String)
    (units : List Int) (moduleAddresses : List String)
    (managerAddress nm sym : String) (createResp : Except String Tx)
    (h : componentAddresses.length ≠ units.length) :
    ∃ e, createAsync componentAddresses units moduleAddresses
        managerAddress nm sym createResp = (Except.error e, []) := by
  unfold createAsync
  (repeat' first
    | exact ⟨_, rfl⟩
    | split) <;> simp_all

/-- Witness for claim C3: one component, zero units. -/
theorem claim_C3_mismatched_lengths_witness :
    ∃ e, createAsync ["0x1111111111111111111111111111111111111111"] [] []
        "0x2222222222222222222222222222222222222222" "Set" "SET"
        (.ok "0xtx") = (Except.error e, []) :=
  claim_C3_mismatched_lengths ["0x1111111111111111111111111111111111111111"]
    [] [] "0x2222222222222222222222222222222222222222" "Set" "SET" (.ok "0xtx")
    (by decide)

/-- Claim C6: if a remote request of the aggregate `fetchSetDetailsAsync`
fails, the whole operation fails with that very error and returns no partial
result — in particular when the streaming-fee-info fetch fails after the
set-details fetch already succeeded. -/
theorem claim_C6_fail_fast (setTokenAddress : String)
    (moduleAddresses : List String) (streamingFeeModuleAddress : String)
    (sd : SetDetails) (feeInfoResp : Except String (List StreamingFeeInfo))
    (e : String)
    (hv : isValidAddress setTokenAddress = true)
    (hm : moduleAddresses.all isValidAddress = true) :
    (fetchSetDetailsAsync setTokenAddress moduleAddresses
        streamingFeeModuleAddress (.error e) feeInfoResp).1 = .error e
    ∧ (streamingFeeModuleAddress ∈ sd.modules →
        (fetchSetDetailsAsync setTokenAddress moduleAddresses
            streamingFeeModuleAddress (.ok sd) (.error e)).1 = .error e) := by
  constructor
  · simp [fetchSetDetailsAsync, hv, hm]
  · intro hc
    simp [fetchSetDetailsAsync, hv, hm, hc]

/-- Witness for claim C6 at a concrete set whose modules include the
streaming-fee module. -/
theorem claim_C6_fail_fast_witness :
    (fetchSetDetailsAsync "0x1111111111111111111111111111111111111111"
        ["0x3333333333333333333333333333333333333333"]
        "0x4444444444444444444444444444444444444444" (.error "boom")
        (.ok [])).1 = .error "boom"
    ∧ ("0x4444444444444444444444444444444444444444"
          ∈ (SetDetails.mk "S" "S" "0x"
            ["0x4444444444444444444444444444444444444444"] [1] [] 0).modules →
        (fetchSetDetailsAsync "0x1111111111111111111111111111111111111111"
            ["0x3333333333333333333333333333333333333333"]
            "0x4444444444444444444444444444444444444444"
            (.ok (SetDetails.mk "S" "S" "0x"
              ["0x4444444444444444444444444444444444444444"] [1] [] 0))
            (.error "boom")).1 = .error "boom") :=
  claim_C6_fail_fast "0x1111111111111111111111111111111111111111"
    ["0x3333333333333333333333333333333333333333"]
    "0x4444444444444444444444444444444444444444"
    (SetDetails.mk "S" "S" "0x" ["0x4444444444444444444444444444444444444444"]
      [1] [] 0)
    (.ok []) "boom" (by decide) (by decide)

/-- Claim C9: the owner (and spender) arrays constructed by
`batchFetchBalancesOfAsync` and `batchFetchAllowancesAsync` and passed
downstream always have exactly the token-address list's length, with every
element equal to the given owner/spender address. -/
theorem claim_C9_parallel_arrays (tokenAddresses : List String)
    (userAddress ownerAddress spenderAddress : String)
    (respB respA : Except String (List Int)) :
    (∀ call ∈ (batchFetchBalancesOfAsync tokenAddresses userAddress respB).2,
      ∃ owners, call = RemoteCall.batchFetchBalancesOf tokenAddresses owners
        ∧ owners.length = tokenAddresses.length
        ∧ ∀ a ∈ owners, a = userAddress)
    ∧ (∀ call ∈ (batchFetchAllowancesAsync tokenAddresses ownerAddress
          spenderAddress respA).2,
      ∃ owners spenders,
        call = RemoteCall.batchFetchAllowances tokenAddresses owners spenders
        ∧ owners.length = tokenAddresses.length
        ∧ spenders.length = tokenAddresses.length
        ∧ (∀ a ∈ owners, a = ownerAddress)
        ∧ (∀ a ∈ spenders, a = spenderAddress)) := by
  constructor
  · intro call hc
    unfold batchFetchBalancesOfAsync at hc
    split at hc
    · simp at hc
    · split at hc
      · simp at hc
      · simp only [List.mem_singleton] at hc
        subst hc
        refine ⟨tokenAddresses.map (fun _ => userAddress), rfl, by simp, ?_⟩
        intro a ha
        rcases List.mem_map.mp ha with ⟨t, _, rfl⟩
        rfl
  · intro call hc
    unfold batchFetchAllowancesAsync at hc
    split at hc
    · simp at hc
    · split at hc
      · simp at hc
      · split at hc
        · simp at hc
        · simp only [List.mem_singleton] at hc
          subst hc
          refine ⟨tokenAddresses.map (fun _ => ownerAddress),
            tokenAddresses.map (fun _ => spenderAddress), rfl, by simp, by simp,
            ?_, ?_⟩
          · intro a ha
            rcases List.mem_map.mp ha with ⟨t, _, rfl⟩
            rfl
          · intro a ha
            rcases List.mem_map.mp ha with ⟨t, _, rfl⟩
            rfl

/-- Witness for claim C9 at a concrete two-token call. -/
theorem claim_C9_parallel_arrays_witness :
    ∃ owners,
      RemoteCall.batchFetchBalancesOf
          ["0x1111111111111111111111111111111111111111",
           "0x2222222222222222222222222222222222222222"]
          ["0x5555555555555555555555555555555555555555",
           "0x5555555555555555555555555555555555555555"]
        = RemoteCall.batchFetchBalancesOf
          ["0x1111111111111111111111111111111111111111",
           "0x2222222222222222222222222222222222222222"] owners
      ∧ owners.length
          = ["0x1111111111111111111111111111111111111111",
             "0x2222222222222222222222222222222222222222"].length
      ∧ ∀ a ∈ owners, a = "0x5555555555555555555555555555555555555555" :=
  (claim_C9_parallel_arrays
    ["0x1111111111111111111111111111111111111111",
     "0x2222222222222222222222222222222222222222"]
    "0x5555555555555555555555555555555555555555"
    "0x5555555555555555555555555555555555555555"
    "0x5555555555555555555555555555555555555555" (.ok []) (.ok [])).1
    (RemoteCall.batchFetchBalancesOf
      ["0x1111111111111111111111111111111111111111",
       "0x2222222222222222222222222222222222222222"]
      ["0x5555555555555555555555555555555555555555",
       "0x5555555555555555555555555555555555555555"])
    (by decide)

/-- Claim C10: under successful remote calls, `fetchSetDetailsAsync` returns
the streaming-fee-enriched result exactly when the configured streaming-fee
module address is among the fetched modules, carrying the original
`SetDetails` unchanged; otherwise it returns the plain `SetDetails`. -/
theorem claim_C10_streaming_enrichment (setTokenAddress : String)
    (moduleAddresses : List String) (streamingFeeModuleAddress : String)
    (sd : SetDetails) (fi : StreamingFeeInfo) (rest : List StreamingFeeInfo)
    (feeInfoResp : Except String (List StreamingFeeInfo))
    (hv : isValidAddress setTokenAddress = true)
    (hm : moduleAddresses.all isValidAddress = true) :
    (streamingFeeModuleAddress ∈ sd.modules →
      (fetchSetDetailsAsync setTokenAddress moduleAddresses
          streamingFeeModuleAddress (.ok sd) (.ok (fi :: rest))).1
        = .ok (.withStreamingInfo sd fi.feeRecipient fi.streamingFeePercentage
            fi.unaccruedFees))
    ∧ (streamingFeeModuleAddress ∉ sd.modules →
      (fetchSetDetailsAsync setTokenAddress moduleAddresses
          streamingFeeModuleAddress (.ok sd) feeInfoResp).1 = .ok (.plain sd)) := by
  constructor
  · intro hc
    simp [fetchSetDetailsAsync, hv, hm, hc]
  · intro hc
    simp [fetchSetDetailsAsync, hv, hm, hc]

/-- Witness for claim C10 in both directions at concrete sets. -/
theorem claim_C10_streaming_enrichment_witness :
    ("0x4444444444444444444444444444444444444444"
        ∈ (SetDetails.mk "S" "S" "0x"
          ["0x4444444444444444444444444444444444444444"] [1] [] 0).modules →
      (fetchSetDetailsAsync "0x1111111111111111111111111111111111111111" []
          "0x4444444444444444444444444444444444444444"
          (.ok (SetDetails.mk "S" "S" "0x"
            ["0x4444444444444444444444444444444444444444"] [1] [] 0))
          (.ok [StreamingFeeInfo.mk "0xf" 2 3])).1
        = .ok (.withStreamingInfo
            (SetDetails.mk "S" "S" "0x"
              ["0x4444444444444444444444444444444444444444"] [1] [] 0)
            (StreamingFeeInfo.mk "0xf" 2 3).feeRecipient
            (StreamingFeeInfo.mk "0xf" 2 3).streamingFeePercentage
            (StreamingFeeInfo.mk "0xf" 2 3).unaccruedFees))
    ∧ ("0x7777777777777777777777777777777777777777"
        ∉ (SetDetails.mk "S" "S" "0x"
          ["0x4444444444444444444444444444444444444444"] [1] [] 0).modules →
      (fetchSetDetailsAsync "0x1111111111111111111111111111111111111111" []
          "0x7777777777777777777777777777777777777777"
          (.ok (SetDetails.mk "S" "S" "0x"
            ["0x4444444444444444444444444444444444444444"] [1] [] 0))
          (.ok [StreamingFeeInfo.mk "0xf" 2 3])).1
        = .ok (.plain (SetDetails.mk "S" "S" "0x"
            ["0x4444444444444444444444444444444444444444"] [1] [] 0))) := by
  constructor
  · exact fun hc => (claim_C10_streaming_enrichment
      "0x1111111111111111111111111111111111111111" []
      "0x4444444444444444444444444444444444444444"
      (SetDetails.mk "S" "S" "0x"
        ["0x4444444444444444444444444444444444444444"] [1] [] 0)
      (StreamingFeeInfo.mk "0xf" 2 3) []
      (.ok [StreamingFeeInfo.mk "0xf" 2 3]) (by decide) (by decide)).1 hc
  · exact fun hc => (claim_C10_streaming_enrichment
      "0x1111111111111111111111111111111111111111" []
      "0x7777777777777777777777777777777777777777"
      (SetDetails.mk "S" "S" "0x"
        ["0x4444444444444444444444444444444444444444"] [1] [] 0)
      (StreamingFeeInfo.mk "0xf" 2 3) []
      (.ok [StreamingFeeInfo.mk "0xf" 2 3]) (by decide) (by decide)).2 hc

/-! ### Module lifecycle (spec §3 `ModuleState`, test scenario in
src/test/wrappers/set-protocol-v2/SetTokenWrapper.spec.ts) -/

namespace SetTokenContract

/-- Modelled from the spec: the remote SetToken contract's `addModule` (the
contract source is not part of this repository).  Per spec §3 the transition
`addModule → PENDING` starts from a module the token does not know yet; the
test suite shows an already-added module reverts with
"Module must not be added". -/
def addModule : ModuleState → Except String ModuleState
  | .NONE => .ok .PENDING
  | _ => .error "Module must not be added"

/-- Modelled from the spec: the remote SetToken contract's `initializeModule`.
Per spec §3 `initializeModule → INITIALIZED` from PENDING; the test suite
shows any non-pending module reverts with "Module must be pending". -/
def initializeModule : ModuleState → Except String ModuleState
  | .PENDING => .ok .INITIALIZED
  | _ => .error "Module must be pending"

end SetTokenContract

/-- Claim C5: module lifecycle as observed through the wrapper — from NONE,
`addModule` yields PENDING; from PENDING, `initializeModule` yields
INITIALIZED; initializing a module in any non-PENDING state fails; and the
wrapper's `initializeModuleAsync` propagates the remote outcome (in
particular such a revert) untouched for a valid set address. -/
theorem claim_C5_module_lifecycle :
    SetTokenContract.addModule .NONE = .ok .PENDING
    ∧ SetTokenContract.initializeModule .PENDING = .ok .INITIALIZED
    ∧ (∀ st : ModuleState, st ≠ .PENDING →
        ∃ e, SetTokenContract.initializeModule st = .error e)
    ∧ (∀ sa : String, ∀ r : Except String Tx, isValidAddress sa = true →
        (initializeModuleAsync sa r).1 = r) := by
  refine ⟨rfl, rfl, ?_, ?_⟩
  · intro st hst
    cases st with
    | NONE => exact ⟨_, rfl⟩
    | PENDING => exact absurd rfl hst
    | INITIALIZED => exact ⟨_, rfl⟩
  · intro sa r hv
    simp [initializeModuleAsync, hv]

/-- Witness for claim C5: initializing from NONE reverts, and the wrapper
passes the revert through at a concrete valid address. -/
theorem claim_C5_module_lifecycle_witness :
    (∃ e, SetTokenContract.initializeModule .NONE = .error e)
    ∧ (initializeModuleAsync "0x1111111111111111111111111111111111111111"
        (.error "Module must be pending")).1 = .error "Module must be pending" :=
  ⟨claim_C5_module_lifecycle.2.2.1 .NONE (by decide),
   claim_C5_module_lifecycle.2.2.2 "0x1111111111111111111111111111111111111111"
     (.error "Module must be pending") (by decide)⟩

/-! ### Wrapper-held state across read operations (claim C8)

`SetTokenAPI` assigns its fields only in the constructor; the only mutable
state reachable from a read operation is the contract-handle cache of
`ContractWrapper`.  The stateful variants below thread that cache state
explicitly.  The `ProtocolViewerWrapper` source is not under src/, so its
relaying is modelled from the spec (§4.1: connect — through the handle cache —
call, decode; §3: read-only snapshot, no caching beyond the call's lifetime).
The `SetTokenWrapper` in src/ holds only the provider and constructs a fresh
contract object per call, so its operations have no state effect at all. -/

/-- Modelled from the spec: `ProtocolViewerWrapper.getSetDetails` loads the
viewer handle through the contract-handle cache and returns the decoded remote
response unchanged. -/
def getSetDetailsS (protocolViewerAddress caller : String)
    (resp : Except String SetDetails) (s : CWState) :
    Except String SetDetails × CWState :=
  (resp, (loadContract .protocolViewer protocolViewerAddress caller s).2)

/-- Modelled from the spec: `ProtocolViewerWrapper.batchFetchStreamingFeeInfo`,
same relay pattern. -/
def batchFetchStreamingFeeInfoS (protocolViewerAddress caller : String)
    (resp : Except String (List StreamingFeeInfo)) (s : CWState) :
    Except String (List StreamingFeeInfo) × CWState :=
  (resp, (loadContract .protocolViewer protocolViewerAddress caller s).2)

/-- Stateful `SetTokenAPI.fetchSetDetailsAsync`: as `fetchSetDetailsAsync`,
threading the contract-handle cache through the one or two viewer calls. -/
def fetchSetDetailsAsyncS (setTokenAddress : String)
    (moduleAddresses : List String)
    (streamingFeeModuleAddress protocolViewerAddress caller : String)
    (getSetDetailsResp : Except String SetDetails)
    (feeInfoResp : Except String (List StreamingFeeInfo)) (s : CWState) :
    Except String SetDetailsResult × CWState :=
  if !(isValidAddress setTokenAddress) then
    (.error (invalidAddressError "setTokenAddress"), s)
  else if !(moduleAddresses.all isValidAddress) then
    (.error (invalidAddressError "moduleAddresses"), s)
  else
    let r₁ := getSetDetailsS protocolViewerAddress caller getSetDetailsResp s
    match r₁.1 with
    | .error e => (.error e, r₁.2)
    | .ok setDetails =>
      if setDetails.modules.contains streamingFeeModuleAddress then
        let r₂ := batchFetchStreamingFeeInfoS protocolViewerAddress caller
          feeInfoResp r₁.2
        match r₂.1 with
        | .error e => (.error e, r₂.2)
        | .ok (fi :: _) =>
          (.ok (.withStreamingInfo setDetails fi.feeRecipient
            fi.streamingFeePercentage fi.unaccruedFees), r₂.2)
        | .ok [] =>
          (.error "TypeError: cannot read properties of undefined", r₂.2)
      else
        (.ok (.plain setDetails), r₁.2)

/-- Stateful `SetTokenAPI.getPositionsAsync`: the src/ `SetTokenWrapper` holds
only the provider and builds a fresh contract per call, so no state changes. -/
def getPositionsS (setAddress : String) (resp : Except String (List Position))
    (s : CWState) : Except String (List Position) × CWState :=
  if !(isValidAddress setAddress) then
    (.error (invalidAddressError "setAddress"), s)
  else
    (resp, s)

/-- Stateful `SetTokenAPI.getModuleStateAsync`, same stateless delegation
through the src/ `SetTokenWrapper`. -/
def getModuleStateAsyncS (setAddress moduleAddress : String)
    (resp : Except String ModuleState) (s : CWState) :
    Except String ModuleState × CWState :=
  if !(isValidAddress setAddress) then
    (.error (invalidAddressError "setAddress"), s)
  else if !(isValidAddress moduleAddress) then
    (.error (invalidAddressError "moduleAddress"), s)
  else
    (resp, s)

/-- Stateful `SetTokenAPI.batchFetchBalancesOfAsync`, relaying through the
viewer handle cache. -/
def batchFetchBalancesOfS (tokenAddresses : List String)
    (userAddress protocolViewerAddress caller : String)
    (resp : Except String (List Int)) (s : CWState) :
    Except String (List Int) × CWState :=
  if !(isValidAddress userAddress) then
    (.error (invalidAddressError "userAddress"), s)
  else if !(tokenAddresses.all isValidAddress) then
    (.error (invalidAddressError "tokenAddress"), s)
  else
    (resp, (loadContract .protocolViewer protocolViewerAddress caller s).2)

/-- Stateful `SetTokenAPI.batchFetchSetDetailsAsync`, relaying through the
viewer handle cache. -/
def batchFetchSetDetailsAsyncS (setTokenAddresses moduleAddresses : List String)
    (protocolViewerAddress caller : String)
    (resp : Except String (List SetDetails)) (s : CWState) :
    Except String (List SetDetails) × CWState :=
  if !(setTokenAddresses.all isValidAddress) then
    (.error (invalidAddressError "setTokenAddresses"), s)
  else if !(moduleAddresses.all isValidAddress) then
    (.error (invalidAddressError "moduleAddresses"), s)
  else
    (resp, (loadContract .protocolViewer protocolViewerAddress caller s).2)

/-- Stateful `SetTokenAPI.batchFetchManagersAsync`: no validation at all, one
relay through the viewer handle cache. -/
def batchFetchManagersAsyncS (tokenAddresses : List String)
    (protocolViewerAddress caller : String)
    (resp : Except String (List String)) (s : CWState) :
    Except String (List String) × CWState :=
  (resp, (loadContract .protocolViewer protocolViewerAddress caller s).2)

/-- Stateful `SetTokenAPI.batchFetchAllowancesAsync`, relaying through the
viewer handle cache. -/
def batchFetchAllowancesAsyncS (tokenAddresses : List String)
    (ownerAddress spenderAddress protocolViewerAddress caller : String)
    (resp : Except String (List Int)) (s : CWState) :
    Except String (List Int) × CWState :=
  if !(isValidAddress ownerAddress) then
    (.error (invalidAddressError "ownerAddress"), s)
  else if !(isValidAddress spenderAddress) then
    (.error (invalidAddressError "spenderAddress"), s)
  else if !(tokenAddresses.all isValidAddress) then
    (.error (invalidAddressError "tokenAddress"), s)
  else
    (resp, (loadContract .protocolViewer protocolViewerAddress caller s).2)

/-- Stateful `SetTokenAPI.getSetAddressFromCreateHash`: `protocolUtils` holds
only the provider, so no state changes. -/
def getSetAddressFromCreateHashS (txHash : String)
    (resp : Except String String) (s : CWState) :
    Except String String × CWState :=
  if !(isValidBytes32 txHash) then
    (.error "Validation error: invalid bytes32 txHash", s)
  else
    (resp, s)

/-- Stateful `SetTokenAPI.getControllerAddressAsync`: stateless delegation
through the src/ `SetTokenWrapper`. -/
def getControllerAddressAsyncS (setAddress : String)
    (resp : Except String String) (s : CWState) :
    Except String String × CWState :=
  if !(isValidAddress setAddress) then
    (.error (invalidAddressError "setAddress"), s)
  else
    (resp, s)

/-- Stateful `SetTokenAPI.getManagerAddressAsync`, same stateless pattern. -/
def getManagerAddressAsyncS (setAddress : String)
    (resp : Except String String) (s : CWState) :
    Except String String × CWState :=
  if !(isValidAddress setAddress) then
    (.error (invalidAddressError "setAddress"), s)
  else
    (resp, s)

/-- Stateful `SetTokenAPI.getModulesAsync`, same stateless pattern. -/
def getModulesAsyncS (setAddress : String)
    (resp : Except String (List String)) (s : CWState) :
    Except String (List String) × CWState :=
  if !(isValidAddress setAddress) then
    (.error (invalidAddressError "setAddress"), s)
  else
    (resp, s)

/-- Stateful `SetTokenAPI.isModuleEnabledAsync`, same stateless pattern. -/
def isModuleEnabledAsyncS (setAddress moduleAddress : String)
    (resp : Except String Bool) (s : CWState) :
    Except String Bool × CWState :=
  if !(isValidAddress setAddress) then
    (.error (invalidAddressError "setAddress"), s)
  else if !(isValidAddress moduleAddress) then
    (.error (invalidAddressError "moduleAddress"), s)
  else
    (resp, s)

/-- Stateful `SetTokenAPI.isModulePendingAsync`, same stateless pattern. -/
def isModulePendingAsyncS (setAddress moduleAddress : String)
    (resp : Except String Bool) (s : CWState) :
    Except String Bool × CWState :=
  if !(isValidAddress setAddress) then
    (.error (invalidAddressError "setAddress"), s)
  else if !(isValidAddress moduleAddress) then
    (.error (invalidAddressError "moduleAddress"), s)
  else
    (resp, s)

/-- Loading the same key twice changes the state only once. -/
theorem loadContract_idem_state (k : ContractKind) (a c : String) (s : CWState) :
    (loadContract k a c (loadContract k a c s).2).2 = (loadContract k a c s).2 := by
  rw [loadContract_of_lookup (loadContract_lookup_self k a c s)]

/-- The full state effect of `fetchSetDetailsAsyncS` is at most the single
viewer-handle load, whatever the remote responses are. -/
theorem fetchSetDetailsAsyncS_state (setTokenAddress : String)
    (moduleAddresses : List String)
    (streamingFeeModuleAddress protocolViewerAddress caller : String)
    (r₁ : Except String SetDetails) (r₂ : Except String (List StreamingFeeInfo))
    (s : CWState) :
    (fetchSetDetailsAsyncS setTokenAddress moduleAddresses
        streamingFeeModuleAddress protocolViewerAddress caller r₁ r₂ s).2
      = if !(isValidAddress setTokenAddress) then s
        else if !(moduleAddresses.all isValidAddress) then s
        else (loadContract .protocolViewer protocolViewerAddress caller s).2 := by
  unfold fetchSetDetailsAsyncS getSetDetailsS batchFetchStreamingFeeInfoS
  split
  · rfl
  · split
    · rfl
    · cases r₁ with
      | error e => rfl
      | ok sd =>
        simp only
        split
        · cases r₂ with
          | error e => exact loadContract_idem_state _ _ _ _
          | ok fis =>
            cases fis with
            | nil => exact loadContract_idem_state _ _ _ _
            | cons fi rest => exact loadContract_idem_state _ _ _ _
        · rfl

/-- Claim C8: `SetTokenAPI` read operations — `fetchSetDetailsAsync`,
`getPositionsAsync`, `getModuleStateAsync`, every batch fetch, and the
remaining single reads — store no fetched entity data in any wrapper-held
state: the final wrapper state never depends on the remote responses, and it
is either unchanged or extended exactly by the contract-handle cache entry for
the viewer; operations going through the src/ `SetTokenWrapper` or
`protocolUtils` leave the state fully unchanged. -/
theorem claim_C8_no_entity_state (setTokenAddress setAddress moduleAddress : String)
    (moduleAddresses tokenAddresses setTokenAddresses : List String)
    (streamingFeeModuleAddress protocolViewerAddress caller userAddress : String)
    (ownerAddress spenderAddress txHash : String)
    (r₁ r₁' : Except String SetDetails)
    (r₂ r₂' : Except String (List StreamingFeeInfo))
    (r₃ : Except String (List Position)) (r₄ : Except String ModuleState)
    (r₅ : Except String (List Int)) (r₆ : Except String (List SetDetails))
    (r₇ : Except String (List String)) (r₈ : Except String (List Int))
    (r₉ r₁₀ r₁₁ : Except String String) (r₁₂ : Except String (List String))
    (r₁₃ r₁₄ : Except String Bool) (s : CWState) :
    ((fetchSetDetailsAsyncS setTokenAddress moduleAddresses
        streamingFeeModuleAddress protocolViewerAddress caller r₁ r₂ s).2 = s
      ∨ (fetchSetDetailsAsyncS setTokenAddress moduleAddresses
          streamingFeeModuleAddress protocolViewerAddress caller r₁ r₂ s).2
        = (loadContract .protocolViewer protocolViewerAddress caller s).2)
    ∧ (fetchSetDetailsAsyncS setTokenAddress moduleAddresses
        streamingFeeModuleAddress protocolViewerAddress caller r₁ r₂ s).2
      = (fetchSetDetailsAsyncS setTokenAddress moduleAddresses
          streamingFeeModuleAddress protocolViewerAddress caller r₁' r₂' s).2
    ∧ (getPositionsS setAddress r₃ s).2 = s
    ∧ (getModuleStateAsyncS setAddress moduleAddress r₄ s).2 = s
    ∧ ((batchFetchBalancesOfS tokenAddresses userAddress protocolViewerAddress
          caller r₅ s).2 = s
      ∨ (batchFetchBalancesOfS tokenAddresses userAddress protocolViewerAddress
          caller r₅ s).2
        = (loadContract .protocolViewer protocolViewerAddress caller s).2)
    ∧ ((batchFetchSetDetailsAsyncS setTokenAddresses moduleAddresses
          protocolViewerAddress caller r₆ s).2 = s
      ∨ (batchFetchSetDetailsAsyncS setTokenAddresses moduleAddresses
          protocolViewerAddress caller r₆ s).2
        = (loadContract .protocolViewer protocolViewerAddress caller s).2)
    ∧ (batchFetchManagersAsyncS tokenAddresses protocolViewerAddress caller
        r₇ s).2
      = (loadContract .protocolViewer protocolViewerAddress caller s).2
    ∧ ((batchFetchAllowancesAsyncS tokenAddresses ownerAddress spenderAddress
          protocolViewerAddress caller r₈ s).2 = s
      ∨ (batchFetchAllowancesAsyncS tokenAddresses ownerAddress spenderAddress
          protocolViewerAddress caller r₈ s).2
        = (loadContract .protocolViewer protocolViewerAddress caller s).2)
    ∧ (getSetAddressFromCreateHashS txHash r₉ s).2 = s
    ∧ (getControllerAddressAsyncS setAddress r₁₀ s).2 = s
    ∧ (getManagerAddressAsyncS setAddress r₁₁ s).2 = s
    ∧ (getModulesAsyncS setAddress r₁₂ s).2 = s
    ∧ (isModuleEnabledAsyncS setAddress moduleAddress r₁₃ s).2 = s
    ∧ (isModulePendingAsyncS setAddress moduleAddress r₁₄ s).2 = s := by
  refine ⟨?_, ?_, ?_, ?_, ?_, ?_, rfl, ?_, ?_, ?_, ?_, ?_, ?_, ?_⟩
  · rw [fetchSetDetailsAsyncS_state]
    split
    · exact Or.inl rfl
    · split
      · exact Or.inl rfl
      · exact Or.inr rfl
  · rw [fetchSetDetailsAsyncS_state, fetchSetDetailsAsyncS_state]
  · unfold getPositionsS
    split <;> rfl
  · unfold getModuleStateAsyncS
    split
    · rfl
    · split <;> rfl
  · unfold batchFetchBalancesOfS
    split
    · exact Or.inl rfl
    · split
      · exact Or.inl rfl
      · exact Or.inr rfl
  · unfold batchFetchSetDetailsAsyncS
    split
    · exact Or.inl rfl
    · split
      · exact Or.inl rfl
      · exact Or.inr rfl
  · unfold batchFetchAllowancesAsyncS
    split
    · exact Or.inl rfl
    · split
      · exact Or.inl rfl
      · split
        · exact Or.inl rfl
        · exact Or.inr rfl
  · unfold getSetAddressFromCreateHashS
    split <;> rfl
  · unfold getControllerAddressAsyncS
    split <;> rfl
  · unfold getManagerAddressAsyncS
    split <;> rfl
  · unfold getModulesAsyncS
    split <;> rfl
  · unfold isModuleEnabledAsyncS
    split
    · rfl
    · split <;> rfl
  · unfold isModulePendingAsyncS
    split
    · rfl
    · split <;> rfl

/-! ### Trade-quote arithmetic (claim C4)

The trade-quote aggregator source is not under src/; its arithmetic is
modelled from the spec (§4.4) over ℚ, and evaluated on the Ethereum fixture
of src/test/fixtures/tradeQuote.ts. -/

/-- Modelled from the spec: "USD value = price × raw amount / 10^decimals". -/
def usdValueOf (priceUsd : ℚ) (rawAmount : Int) (decimals : Nat) : ℚ :=
  priceUsd * rawAmount / 10 ^ decimals

/-- Modelled from the spec: a token display amount is the raw amount scaled
down by the token's decimals. -/
def displayAmountOf (rawAmount : Int) (decimals : Nat) : ℚ :=
  (rawAmount : ℚ) / 10 ^ decimals

/-- Modelled from the spec: "slippage = (quoted amount − guaranteed amount) /
quoted amount". -/
def slippageOf (quotedAmount guaranteedAmount : ℚ) : ℚ :=
  (quotedAmount - guaranteedAmount) / quotedAmount

/-- Rounding to two decimal places (round half up), as the percentage display
strings of the fixtures are formatted. -/
def roundToPercent2 (q : ℚ) : ℚ :=
  (⌊q * 100 + 1 / 2⌋ : ℚ) / 100

namespace tradeQuoteFixtures

/-- `zeroExReponseEth.data.price`. -/
def zeroExPriceEth : ℚ := 0.082625382321048146

/-- `zeroExReponseEth.data.guaranteedPrice` — equal to the price. -/
def zeroExGuaranteedPriceEth : ℚ := 0.082625382321048146

/-- `zeroExReponseEth.data.buyAmount`. -/
def zeroExBuyAmountEth : Int := 41312691160507030

/-- `zeroExReponseEth.data.sellAmount`. -/
def zeroExSellAmountEth : Int := 499999999999793729

/-- `coinGeckoPricesResponseEth` entry for the from-token
0x9f8f72aa9304c8b593d555f12ef6589cc3a579a2. -/
def fromTokenPriceUsdEth : ℚ := 3194.41

/-- `coinGeckoPricesResponseEth` entry for the to-token
0x0bc529c00c6401aef6d220be8c6ea1667f6ad93e. -/
def toTokenPriceUsdEth : ℚ := 39087

/-- `setTradeQuoteEth.display.toTokenDisplayAmount`. -/
def toTokenDisplayAmountEth : ℚ := 0.04131269116050703

/-- `setTradeQuoteEth.display.slippage`, the percentage −1.10%. -/
def slippageEth : ℚ := -1.10

end tradeQuoteFixtures

/-- Claim C4, counterexample: on the Ethereum fixture the 0x quote's price and
guaranteed price are equal, so "slippage = (quoted − guaranteed) / quoted"
evaluates to 0 — both on the prices themselves and on the amounts they imply —
and 0.00% is not the fixture's −1.10%. -/
theorem claim_C4_counterexample :
    slippageOf tradeQuoteFixtures.zeroExPriceEth
        tradeQuoteFixtures.zeroExGuaranteedPriceEth = 0
    ∧ slippageOf
        (tradeQuoteFixtures.zeroExPriceEth
          * (tradeQuoteFixtures.zeroExSellAmountEth : ℚ))
        (tradeQuoteFixtures.zeroExGuaranteedPriceEth
          * (tradeQuoteFixtures.zeroExSellAmountEth : ℚ)) = 0
    ∧ roundToPercent2 (100 * (0 : ℚ)) ≠ tradeQuoteFixtures.slippageEth := by
  refine ⟨?_, ?_, ?_⟩
  · norm_num [slippageOf, tradeQuoteFixtures.zeroExPriceEth,
      tradeQuoteFixtures.zeroExGuaranteedPriceEth]
  · norm_num [slippageOf, tradeQuoteFixtures.zeroExPriceEth,
      tradeQuoteFixtures.zeroExGuaranteedPriceEth]
  · norm_num [roundToPercent2, tradeQuoteFixtures.slippageEth]

/-- Claim C4, amended: on the Ethereum fixture the computed
toTokenDisplayAmount equals buyAmount / 10^18 to full precision (the fixture's
0.04131269116050703), and the fixture's −1.10% slippage equals
(from-token USD value − to-token USD value) / from-token USD value, computed
from the fixture's oracle prices and rounded to two decimals — not the 0x
quote's (price − guaranteedPrice) / price, which is 0 here. -/
theorem claim_C4_amended_fixture_arithmetic :
    displayAmountOf tradeQuoteFixtures.zeroExBuyAmountEth 18
        = tradeQuoteFixtures.toTokenDisplayAmountEth
    ∧ roundToPercent2 (100 * slippageOf
        (usdValueOf tradeQuoteFixtures.fromTokenPriceUsdEth
          tradeQuoteFixtures.zeroExSellAmountEth 18)
        (usdValueOf tradeQuoteFixtures.toTokenPriceUsdEth
          tradeQuoteFixtures.zeroExBuyAmountEth 18))
      = tradeQuoteFixtures.slippageEth := by
  constructor
  · norm_num [displayAmountOf, tradeQuoteFixtures.zeroExBuyAmountEth,
      tradeQuoteFixtures.toTokenDisplayAmountEth]
  · have hfl : ⌊(100 * slippageOf
        (usdValueOf tradeQuoteFixtures.fromTokenPriceUsdEth
          tradeQuoteFixtures.zeroExSellAmountEth 18)
        (usdValueOf tradeQuoteFixtures.toTokenPriceUsdEth
          tradeQuoteFixtures.zeroExBuyAmountEth 18)) * 100 + 1 / 2⌋
        = (-110 : ℤ) := by
      apply Int.floor_eq_iff.mpr
      constructor
      · norm_num [slippageOf, usdValueOf,
          tradeQuoteFixtures.fromTokenPriceUsdEth,
          tradeQuoteFixtures.toTokenPriceUsdEth,
          tradeQuoteFixtures.zeroExSellAmountEth,
          tradeQuoteFixtures.zeroExBuyAmountEth]
      · norm_num [slippageOf, usdValueOf,
          tradeQuoteFixtures.fromTokenPriceUsdEth,
          tradeQuoteFixtures.toTokenPriceUsdEth,
          tradeQuoteFixtures.zeroExSellAmountEth,
          tradeQuoteFixtures.zeroExBuyAmountEth]
    rw [roundToPercent2, hfl]
    norm_num [tradeQuoteFixtures.slippageEth]

end SetJs
